import Mathlib

/-!
Verification of `send_first_img.py`: a shallow embedding of the script's
pure logic (HTML item extraction, URL normalization, and the entry-point
control flow) together with theorems settling the specification's claims.

The HTML document is modelled as a tree of element/text nodes, i.e. the
parsed DOM that BeautifulSoup produces; parsing itself is an external
capability.  All string-level operations (`strip`, `startswith`, the
`^item_\d+` regular-expression search, `urljoin` for site-relative
references) are translated from their Python semantics.
-/

namespace SendFirstImg

mutual
/-- A DOM node: an element with a tag name, attributes and children, or a
text node.  This is the parse tree `BeautifulSoup(resp.text, "html.parser")`
hands to `get_first_item`. -/
inductive Node where
  | elem (tag : String) (attrs : List (String × String)) (children : NodeList)
  | text (s : String)
/-- A sequence of sibling DOM nodes. -/
inductive NodeList where
  | nil
  | cons (head : Node) (tail : NodeList)
end

/-- Build a `NodeList` from a Lean list, for readable document literals. -/
def NodeList.ofList : List Node → NodeList
  | [] => .nil
  | n :: rest => .cons n (NodeList.ofList rest)

mutual
/-- The descendants of a node, in document order (pre-order). -/
def Node.desc : Node → List Node
  | .elem _ _ cs => NodeList.desc cs
  | .text _ => []
/-- All nodes of a sibling sequence together with their descendants, in
document order: each node followed by its own descendants.  This is the
order in which BeautifulSoup's `find` visits candidates. -/
def NodeList.desc : NodeList → List Node
  | .nil => []
  | .cons n rest => n :: (Node.desc n ++ NodeList.desc rest)
end

/-- The children of a node (empty for text nodes). -/
def Node.children : Node → NodeList
  | .elem _ _ cs => cs
  | .text _ => .nil

/-- Attribute lookup, `tag.get(key)` / `tag[key]`: the value of the first
attribute with the given name, if any. -/
def getAttr (n : Node) (key : String) : Option String :=
  match n with
  | .elem _ attrs _ => (attrs.find? (fun p => p.1 == key)).map (fun p => p.2)
  | .text _ => none

/-- Python `s.startswith(pre)`. -/
def pyStartsWith (s pre : String) : Bool := pre.data.isPrefixOf s.data

/-- Whitespace characters stripped by Python `str.strip()`. -/
def isPySpace (c : Char) : Bool :=
  c = ' ' || c = '\t' || c = '\n' || c = '\r' || c = Char.ofNat 11 || c = Char.ofNat 12

/-- Python `s.strip()`: remove leading and trailing whitespace. -/
def pyStrip (s : String) : String :=
  String.mk (((s.data.dropWhile isPySpace).reverse.dropWhile isPySpace).reverse)

/-- The regular-expression search `re.compile(r"^item_\d+")` applied to an
id value: `re.search` with a `^` anchor succeeds exactly when the string
starts with `item_` followed by at least one digit (anything may follow). -/
def idSearchMatch (s : String) : Bool :=
  pyStartsWith s "item_" &&
    (match s.data.drop 5 with
     | c :: _ => c.isDigit
     | [] => false)

/-- Whether a node carries an `id` attribute whose value matches the
`^item_\d+` regular expression (a node without an `id` never matches). -/
def idMatches (n : Node) : Bool :=
  match getAttr n "id" with
  | some v => idSearchMatch v
  | none => false

/-- The predicate `soup.find("div", id=re.compile(r"^item_\d+"))` filters
by: the node is a tag named `div` carrying an `id` attribute whose value
matches the regular expression. -/
def isItemDiv (n : Node) : Bool :=
  match n with
  | .elem tag _ _ => tag == "div" && idMatches n
  | .text _ => false

/-- `soup.find("div", id=re.compile(r"^item_\d+"))`: the first matching
descendant of the document in document order. -/
def findDiv (doc : NodeList) : Option Node :=
  (NodeList.desc doc).find? isItemDiv

/-- `n.find(tag)`: the first descendant of `n` (excluding `n` itself) that
is an element with the given tag name. -/
def findTag (n : Node) (tag : String) : Option Node :=
  (NodeList.desc n.children).find? (fun m =>
    match m with
    | .elem t _ _ => t == tag
    | .text _ => false)

/-- The text pieces (`NavigableString`s) below a node, in document order. -/
def textStrings (n : Node) : List String :=
  (NodeList.desc n.children).filterMap (fun m =>
    match m with
    | .text s => some s
    | .elem _ _ _ => none)

/-- `dd.get_text(strip=True)`: every text descendant stripped of
surrounding whitespace, concatenated (empty pieces contribute nothing). -/
def getTextStrip (n : Node) : String :=
  String.join ((textStrings n).map pyStrip)

/-- Extract the scheme of a URL: split the character list at the first
occurrence of `://`, returning the part before it and the part after. -/
def splitSchemeAux : List Char → Option (List Char × List Char)
  | [] => none
  | ':' :: '/' :: '/' :: rest => some ([], rest)
  | c :: rest =>
      match splitSchemeAux rest with
      | none => none
      | some (a, b) => some (c :: a, b)

/-- A character that may appear in the network-location part of a URL
(the netloc ends at the first `/`, `?` or `#`). -/
def isNetlocChar (c : Char) : Bool :=
  !(c = '/' || c = '?' || c = '#')

/-- `requests.compat.urljoin(base, ref)` as the script uses it: `ref` is a
site-relative reference (it starts with a single `/`), so the join keeps
the scheme and network location of `base` and replaces the path with
`ref`; a base without a scheme contributes nothing and the reference is
returned as-is. -/
def urljoin (base ref : String) : String :=
  match splitSchemeAux base.data with
  | none => ref
  | some (scheme, rest) =>
      String.mk scheme ++ "://" ++ String.mk (rest.takeWhile isNetlocChar) ++ ref

/-- The normalization step of `get_first_item` (lines 41-46): prefix
`https:` to a protocol-relative reference, resolve a site-relative
reference against the page URL, pass anything else through unchanged. -/
def normalizeSrc (url src : String) : String :=
  if pyStartsWith src "//" then "https:" ++ src
  else if pyStartsWith src "/" then urljoin url src
  else src

/-- The fixed catalog page URL. -/
def URL : String := "https://www.nogizaka46shop.com/category/426"

/-- The pure part of `get_first_item`: given the parsed document and the
page URL, return `(image_url, caption)` for the first item div, or the
error message of the `RuntimeError` the Python code raises. -/
def get_first_item (doc : NodeList) (url : String) : Except String (String × String) :=
  match findDiv doc with
  | none => Except.error "No item div found on the page"
  | some div =>
    match findTag div "img" with
    | none => Except.error "No image tag found in the first item div"
    | some img =>
      match getAttr img "src" with
      | none => Except.error "No image tag found in the first item div"
      | some s =>
        if s = "" then Except.error "No image tag found in the first item div"
        else
          let src := normalizeSrc url (pyStrip s)
          let caption :=
            match findTag div "dd" with
            | none => ""
            | some dd => getTextStrip dd
          Except.ok (src, caption)

/-- Modelled from the spec: the fully anchored pattern `^item_\d+$` —
the literal `item_` followed by one or more digits and nothing else.
Stated for comparison with the code's `idSearchMatch`, which has no end
anchor. -/
def specAnchoredItemId (s : String) : Bool :=
  pyStartsWith s "item_" &&
    !(s.data.drop 5).isEmpty && (s.data.drop 5).all Char.isDigit

/-- A character allowed inside a URL scheme name after its first letter. -/
def isSchemeChar (c : Char) : Bool :=
  c.isAlphanum || c = '+' || c = '-' || c = '.'

/-- Whether a reference already carries a URL scheme: a letter, then
scheme characters, then `:`. -/
def hasUrlScheme (s : String) : Bool :=
  match s.data with
  | [] => false
  | c :: rest =>
      c.isAlpha &&
        (match rest.dropWhile isSchemeChar with
         | ':' :: _ => true
         | _ => false)

/-! ### The entry point

`main` is modelled with its three network interactions as oracle
parameters: `fetchResult` is the outcome of the page GET (transport/HTTP
failure, or the parsed document), `download` the outcome of the image GET
for a given URL, and `notify` the outcome of the Telegram POST for the
given token, chat id, bytes and caption (`TgResponse` is the parsed JSON
body; an unparseable body or HTTP failure is the error case).  The result
records the exit code, the printed lines, and which network stages were
entered. -/

/-- The parsed body of a successful `sendPhoto` exchange: `res.get("ok")`
is the value of the `ok` field when present. -/
structure TgResponse where
  ok : Option Bool

/-- The three network stages of the pipeline. -/
inductive Step where
  | fetchPage
  | downloadImage
  | notify
deriving DecidableEq, Repr

/-- Observable outcome of a run: process exit code, console lines, and
the network stages that were entered. -/
structure RunResult where
  exitCode : Nat
  output : List String
  calls : List Step

/-- Python truthiness test `not x` for an `Optional[str]`: true when the
variable is unset or the empty string. -/
def isFalsy : Option String → Bool
  | none => true
  | some s => s == ""

/-- `print` rendering of `res.get("ok")`: `None`, `True` or `False`. -/
def pyShow : Option Bool → String
  | none => "None"
  | some true => "True"
  | some false => "False"

/-- The usage message printed when configuration is missing. -/
def usageMsg : String :=
  "Please set TELEGRAM_BOT_TOKEN and TELEGRAM_CHAT_ID environment variables."

/-- The entry point `main()`: read the two environment variables, exit 2
if either is falsy; otherwise fetch+extract, download, notify, each stage
exiting 1 on failure; on full success print the `ok` field and exit 0. -/
def main (token chat_id : Option String)
    (fetchResult : Except String NodeList)
    (download : String → Except String (List Nat))
    (notify : String → String → List Nat → String → Except String TgResponse) :
    RunResult :=
  if isFalsy token || isFalsy chat_id then
    { exitCode := 2, output := [usageMsg], calls := [] }
  else
    match fetchResult.bind (fun doc => get_first_item doc URL) with
    | .error e =>
        { exitCode := 1
          output := ["Error fetching/parsing page: " ++ e]
          calls := [Step.fetchPage] }
    | .ok (image_url, caption) =>
        let out0 := ["Found image: " ++ image_url, "Caption: " ++ caption]
        match download image_url with
        | .error e =>
            { exitCode := 1
              output := out0 ++ ["Error downloading image: " ++ e]
              calls := [Step.fetchPage, Step.downloadImage] }
        | .ok image_bytes =>
            match notify (token.getD "") (chat_id.getD "") image_bytes caption with
            | .error e =>
                { exitCode := 1
                  output := out0 ++ ["Error sending to Telegram: " ++ e]
                  calls := [Step.fetchPage, Step.downloadImage, Step.notify] }
            | .ok res =>
                { exitCode := 0
                  output := out0 ++ ["Telegram API returned ok= " ++ pyShow res.ok]
                  calls := [Step.fetchPage, Step.downloadImage, Step.notify] }

/-! ### Concrete documents used as witnesses and counterexamples -/

/-- A page with one item div `item_42` holding `<img src="/path/a.jpg">`
and `<dd>Caption Text</dd>`. -/
def doc42 : NodeList :=
  NodeList.ofList [
    Node.elem "html" [] (NodeList.ofList [
      Node.elem "body" [] (NodeList.ofList [
        Node.elem "div" [("id", "item_42")] (NodeList.ofList [
          Node.elem "img" [("src", "/path/a.jpg")] .nil,
          Node.elem "dd" [] (NodeList.ofList [Node.text "Caption Text"])])])])]

/-- A page whose first fully-anchored match is a `span` (`id="item_1"`),
followed by a div whose id `item_2x` has trailing characters. -/
def docC2 : NodeList :=
  NodeList.ofList [
    Node.elem "span" [("id", "item_1")] .nil,
    Node.elem "div" [("id", "item_2x")] (NodeList.ofList [
      Node.elem "img" [("src", "//cdn.x/y.jpg")] .nil])]

/-- A page whose item div's image has `src=""` (present but empty). -/
def docEmptySrc : NodeList :=
  NodeList.ofList [
    Node.elem "div" [("id", "item_3")] (NodeList.ofList [
      Node.elem "img" [("src", "")] .nil])]

/-- A page whose item div's image reference is scheme-less and does not
start with `/`. -/
def docRelSrc : NodeList :=
  NodeList.ofList [
    Node.elem "div" [("id", "item_5")] (NodeList.ofList [
      Node.elem "img" [("src", "images/x.jpg")] .nil])]

/-- A page whose item div has no image at all. -/
def docNoImg : NodeList :=
  NodeList.ofList [
    Node.elem "div" [("id", "item_1")] (NodeList.ofList [Node.text "nothing here"])]

/-- A page whose item div's first image has no `src` attribute. -/
def docNoSrc : NodeList :=
  NodeList.ofList [
    Node.elem "div" [("id", "item_1")] (NodeList.ofList [
      Node.elem "img" [("alt", "x")] .nil])]

/-- A page whose item div's image has a whitespace-only `src`. -/
def docWsSrc : NodeList :=
  NodeList.ofList [
    Node.elem "div" [("id", "item_7")] (NodeList.ofList [
      Node.elem "img" [("src", "   ")] .nil,
      Node.elem "dd" [] (NodeList.ofList [Node.text "cap"])])]

/-- A page with an item div whose image has a usable src and no `<dd>`. -/
def docNoDd : NodeList :=
  NodeList.ofList [
    Node.elem "div" [("id", "item_9")] (NodeList.ofList [
      Node.elem "img" [("src", "https://cdn.example.com/x.jpg")] .nil])]

/-! ### Helper lemmas -/

theorem pyStartsWith_dslash (s : String) :
    pyStartsWith s "//" = List.isPrefixOf ['/', '/'] s.data := rfl

theorem pyStartsWith_slash (s : String) :
    pyStartsWith s "/" = List.isPrefixOf ['/'] s.data := rfl

/-- A string starting with `//` also starts with `/`. -/
theorem startsWith_slash_of_dslash {s : String} (h : pyStartsWith s "//" = true) :
    pyStartsWith s "/" = true := by
  rw [pyStartsWith_dslash] at h
  rw [pyStartsWith_slash]
  cases hd : s.data with
  | nil => rw [hd] at h; simp [List.isPrefixOf] at h
  | cons c rest =>
      rw [hd] at h
      simp [List.isPrefixOf] at h ⊢
      exact h.1

/-- A `find?` hit satisfies the predicate and everything before it in the
list fails it. -/
theorem find?_eq_some_split {α : Type} (p : α → Bool) :
    ∀ (l : List α) (a : α), l.find? p = some a →
      p a = true ∧ ∃ l₁ l₂, l = l₁ ++ a :: l₂ ∧ ∀ x ∈ l₁, p x = false := by
  intro l
  induction l with
  | nil => intro a h; simp [List.find?] at h
  | cons x xs ih =>
      intro a h
      by_cases hx : p x
      · rw [List.find?_cons_of_pos _ hx] at h
        cases h
        exact ⟨hx, [], xs, rfl, by intro y hy; cases hy⟩
      · rw [List.find?_cons_of_neg _ (by simpa using hx)] at h
        obtain ⟨hpa, l₁, l₂, heq, hall⟩ := ih a h
        refine ⟨hpa, x :: l₁, l₂, by rw [heq]; rfl, ?_⟩
        intro y hy
        cases hy with
        | head => simpa using hx
        | tail _ hy' => exact hall y hy'

/-- Stripping a string of only-whitespace characters yields `""`. -/
theorem pyStrip_all_space {s : String} (h : ∀ c ∈ s.data, isPySpace c = true) :
    pyStrip s = "" := by
  unfold pyStrip
  rw [List.dropWhile_eq_nil_iff.mpr h]
  rfl

/-- `urljoin` on a base with an `https` scheme keeps scheme and netloc of
the base and appends the reference. -/
theorem urljoin_https (t ref : String) :
    urljoin ("https://" ++ t) ref =
      "https://" ++ String.mk (t.data.takeWhile isNetlocChar) ++ ref := by
  simp [urljoin, splitSchemeAux]

/-- The success shape of `get_first_item`: when a matching div exists, its
first image carries a non-empty `src`, the function returns the
normalized stripped source and the (possibly empty) caption. -/
theorem get_first_item_eq_ok {doc : NodeList} {url : String} {d img : Node} {s : String}
    (hd : findDiv doc = some d) (hi : findTag d "img" = some img)
    (hs : getAttr img "src" = some s) (hne : s ≠ "") :
    get_first_item doc url =
      Except.ok (normalizeSrc url (pyStrip s),
        match findTag d "dd" with
        | none => ""
        | some dd => getTextStrip dd) := by
  simp [get_first_item, hd, hi, hs, hne]

/-- An alphabetic character is not `/`, so a reference carrying a scheme
does not start with `/`. -/
theorem not_startsWith_slash_of_scheme {s : String} (h : hasUrlScheme s = true) :
    pyStartsWith s "/" = false := by
  rw [pyStartsWith_slash]
  unfold hasUrlScheme at h
  cases hd : s.data with
  | nil => rw [hd] at h; simp at h
  | cons c rest =>
      rw [hd] at h
      have h2 : (c.isAlpha &&
          (match rest.dropWhile isSchemeChar with
           | ':' :: _ => true
           | _ => false)) = true := h
      have hc : c.isAlpha = true := by
        rw [Bool.and_eq_true] at h2
        exact h2.1
      simp [List.isPrefixOf]
      intro hcc
      rw [← hcc] at hc
      simp [Char.isAlpha, Char.isUpper, Char.isLower] at hc

/-- Prepending `https://` is prepending `https:` and then `//`. -/
theorem https_dslash_append (x : String) :
    ("https://" : String) ++ x = "https:" ++ ("//" ++ x) := rfl

/-! ### Claim C1 -/

/-- C1: counterexample.  On precisely the HTML the claim describes — an
element `id="item_42"` nesting `<img src="/path/a.jpg">` and
`<dd>Caption Text</dd>` — `get_first_item` does not return the raw pair
`("/path/a.jpg", "Caption Text")`: the site-relative reference is
normalized against the page URL before being returned. -/
theorem C1_counterexample :
    get_first_item doc42 URL =
        Except.ok ("https://www.nogizaka46shop.com/path/a.jpg", "Caption Text")
  ∧ get_first_item doc42 URL ≠ Except.ok ("/path/a.jpg", "Caption Text") := by
  constructor
  · rfl
  · intro h
    rw [show get_first_item doc42 URL =
        Except.ok ("https://www.nogizaka46shop.com/path/a.jpg", "Caption Text") from rfl] at h
    injection h with h2
    exact absurd h2 (by decide)

/-- C1 (amended): for any HTML input whose first item-matching div nests a
first `<img src="/path/a.jpg">` and a first `<dd>` with visible text
`Caption Text`, `get_first_item` returns the raw reference `/path/a.jpg`
resolved against the page URL, paired with the caption. -/
theorem C1_extraction (doc : NodeList) (d img dd : Node)
    (hd : findDiv doc = some d) (hi : findTag d "img" = some img)
    (hs : getAttr img "src" = some "/path/a.jpg")
    (hdd : findTag d "dd" = some dd) (hc : getTextStrip dd = "Caption Text") :
    get_first_item doc URL =
      Except.ok ("https://www.nogizaka46shop.com/path/a.jpg", "Caption Text") := by
  rw [get_first_item_eq_ok hd hi hs (by decide), hdd]
  simp [hc]
  rfl

/-- C1: witness instantiating `C1_extraction` at the concrete `doc42`. -/
theorem C1_extraction_witness :
    get_first_item doc42 URL =
      Except.ok ("https://www.nogizaka46shop.com/path/a.jpg", "Caption Text") :=
  C1_extraction doc42
    (Node.elem "div" [("id", "item_42")] (NodeList.ofList [
      Node.elem "img" [("src", "/path/a.jpg")] .nil,
      Node.elem "dd" [] (NodeList.ofList [Node.text "Caption Text"])]))
    (Node.elem "img" [("src", "/path/a.jpg")] .nil)
    (Node.elem "dd" [] (NodeList.ofList [Node.text "Caption Text"]))
    rfl rfl rfl rfl rfl

/-! ### Claim C2 -/

/-- C2: counterexample.  In `docC2` the extractor selects the div whose id
`item_2x` has a trailing character after the digits (the search pattern is
only anchored at the start), and it skips the earlier `span` element whose
id `item_1` matches the fully anchored pattern — so the selected element
is neither a full match of `^item_\d+$` nor the first element whose id
matches it. -/
theorem C2_counterexample :
    findDiv docC2 =
        some (Node.elem "div" [("id", "item_2x")] (NodeList.ofList [
          Node.elem "img" [("src", "//cdn.x/y.jpg")] .nil]))
  ∧ specAnchoredItemId "item_2x" = false
  ∧ specAnchoredItemId "item_1" = true
  ∧ getAttr (Node.elem "span" [("id", "item_1")] .nil) "id" = some "item_1" :=
  ⟨rfl, by decide, by decide, rfl⟩

/-- C2 (amended): the element selected by the extractor is the first
`div` in document order whose id starts with `item_` followed by at least
one digit (trailing characters after the digits are permitted, and
elements other than `div` are never selected): the selected node
satisfies `isItemDiv` and every node before it in document order does
not. -/
theorem C2_selection (doc : NodeList) (n : Node) (h : findDiv doc = some n) :
    isItemDiv n = true ∧
      ∃ pre post, NodeList.desc doc = pre ++ n :: post ∧ ∀ m ∈ pre, isItemDiv m = false :=
  find?_eq_some_split isItemDiv (NodeList.desc doc) n h

/-- C2: witness instantiating `C2_selection` at the concrete `docC2`. -/
theorem C2_selection_witness :
    isItemDiv (Node.elem "div" [("id", "item_2x")] (NodeList.ofList [
        Node.elem "img" [("src", "//cdn.x/y.jpg")] .nil])) = true ∧
      ∃ pre post, NodeList.desc docC2 =
          pre ++ (Node.elem "div" [("id", "item_2x")] (NodeList.ofList [
            Node.elem "img" [("src", "//cdn.x/y.jpg")] .nil])) :: post ∧
        ∀ m ∈ pre, isItemDiv m = false :=
  C2_selection docC2 _ rfl

/-! ### Claim C3 -/

/-- C3: the URL normalization step satisfies the three-case contract:
a reference starting with `//` gets `https:` prepended (with the spec's
concrete example), a reference starting with a single `/` is URL-joined
with the base page URL (with the spec's concrete example), and a
reference already carrying a scheme is returned unchanged (with the
spec's concrete example). -/
theorem C3_normalizer :
    (∀ (base src : String), pyStartsWith src "//" = true →
        normalizeSrc base src = "https:" ++ src)
  ∧ normalizeSrc "https://example.com/category/426" "//cdn.example.com/x.jpg" =
      "https://cdn.example.com/x.jpg"
  ∧ (∀ (base src : String), pyStartsWith src "/" = true → pyStartsWith src "//" = false →
        normalizeSrc base src = urljoin base src)
  ∧ normalizeSrc "https://example.com/category/426" "/images/x.jpg" =
      "https://example.com/images/x.jpg"
  ∧ (∀ (base src : String), hasUrlScheme src = true → normalizeSrc base src = src)
  ∧ normalizeSrc "https://example.com/category/426" "https://cdn.example.com/x.jpg" =
      "https://cdn.example.com/x.jpg" := by
  refine ⟨?_, by decide, ?_, by decide, ?_, by decide⟩
  · intro base src h
    simp [normalizeSrc, h]
  · intro base src h1 h2
    simp [normalizeSrc, h1, h2]
  · intro base src h
    have h1 : pyStartsWith src "/" = false := not_startsWith_slash_of_scheme h
    have h2 : pyStartsWith src "//" = false := by
      cases hds : pyStartsWith src "//" with
      | false => rfl
      | true => rw [startsWith_slash_of_dslash hds] at h1; cases h1
    simp [normalizeSrc, h1, h2]

/-- C3: witness discharging the hypotheses of each general conjunct of
`C3_normalizer` at concrete references. -/
theorem C3_normalizer_witness :
    normalizeSrc "https://example.com/category/426" "//a/b.jpg" = "https:" ++ "//a/b.jpg"
  ∧ normalizeSrc "https://example.com/category/426" "/images/x.jpg" =
      urljoin "https://example.com/category/426" "/images/x.jpg"
  ∧ normalizeSrc "https://example.com/category/426" "ftp://h/x" = "ftp://h/x" :=
  ⟨C3_normalizer.1 "https://example.com/category/426" "//a/b.jpg" (by decide),
   C3_normalizer.2.2.1 "https://example.com/category/426" "/images/x.jpg"
     (by decide) (by decide),
   C3_normalizer.2.2.2.2.1 "https://example.com/category/426" "ftp://h/x" (by decide)⟩

/-! ### Claim C4 -/

/-- C4: counterexample.  On `docRelSrc`, whose image reference
`images/x.jpg` is scheme-less and does not start with `/`,
`get_first_item` succeeds and returns that reference unchanged — the
returned image reference carries no scheme, so it is not an absolute
URL. -/
theorem C4_counterexample :
    get_first_item docRelSrc URL = Except.ok ("images/x.jpg", "")
  ∧ hasUrlScheme "images/x.jpg" = false
  ∧ pyStartsWith "images/x.jpg" "https:" = false :=
  ⟨rfl, by decide, by decide⟩

/-- C4 (amended): the normalized reference is guaranteed absolute only
for rooted raw references: whenever the trimmed `src` starts with `/`
(protocol-relative or site-relative) and the base page URL uses the
`https` scheme, the reference `get_first_item` returns begins with
`https:`.  A scheme-less relative reference is passed through
unchanged and need not be absolute. -/
theorem C4_rooted_absolute (doc : NodeList) (t : String) (d img : Node) (s : String)
    (hd : findDiv doc = some d) (hi : findTag d "img" = some img)
    (hs : getAttr img "src" = some s) (hne : s ≠ "")
    (hsl : pyStartsWith (pyStrip s) "/" = true) :
    ∃ rest cap, get_first_item doc ("https://" ++ t) = Except.ok ("https:" ++ rest, cap) := by
  rw [get_first_item_eq_ok hd hi hs hne]
  by_cases hds : pyStartsWith (pyStrip s) "//" = true
  · refine ⟨pyStrip s,
      (match findTag d "dd" with | none => "" | some dd => getTextStrip dd), ?_⟩
    simp [normalizeSrc, hds]
  · have hds' : pyStartsWith (pyStrip s) "//" = false := by
      cases hv : pyStartsWith (pyStrip s) "//" with
      | false => rfl
      | true => exact absurd hv hds
    refine ⟨"//" ++ String.mk (t.data.takeWhile isNetlocChar) ++ pyStrip s,
      (match findTag d "dd" with | none => "" | some dd => getTextStrip dd), ?_⟩
    simp [normalizeSrc, hds', hsl, urljoin_https, String.append_assoc]
    exact https_dslash_append _

/-- C4: witness instantiating `C4_rooted_absolute` at `doc42`, whose raw
reference `/path/a.jpg` is site-relative. -/
theorem C4_rooted_absolute_witness :
    ∃ rest cap, get_first_item doc42 ("https://" ++ "www.nogizaka46shop.com/category/426") =
      Except.ok ("https:" ++ rest, cap) :=
  C4_rooted_absolute doc42 "www.nogizaka46shop.com/category/426" _ _ "/path/a.jpg"
    rfl rfl rfl (by decide) (by decide)

/-! ### Claim C5 -/

/-- C5: extraction fails with the not-found error exactly in the three
missing-structure cases the claim lists: a document in which no element's
id matches the item pattern, a matched item div with no `<img>`
descendant, and a matched item div whose first `<img>` lacks a `src`
attribute. -/
theorem C5_notfound_errors :
    (∀ (doc : NodeList) (url : String),
        (∀ n ∈ NodeList.desc doc, idMatches n = false) →
        get_first_item doc url = Except.error "No item div found on the page")
  ∧ (∀ (doc : NodeList) (url : String) (d : Node),
        findDiv doc = some d → findTag d "img" = none →
        get_first_item doc url = Except.error "No image tag found in the first item div")
  ∧ (∀ (doc : NodeList) (url : String) (d img : Node),
        findDiv doc = some d → findTag d "img" = some img → getAttr img "src" = none →
        get_first_item doc url = Except.error "No image tag found in the first item div") := by
  refine ⟨?_, ?_, ?_⟩
  · intro doc url h
    have hf : findDiv doc = none := by
      unfold findDiv
      rw [List.find?_eq_none]
      intro x hx
      cases x with
      | text s => simp [isItemDiv]
      | elem t a c => simp [isItemDiv, h _ hx]
    simp [get_first_item, hf]
  · intro doc url d hd hi
    simp [get_first_item, hd, hi]
  · intro doc url d img hd hi hs
    simp [get_first_item, hd, hi, hs]

/-- C5: witness — the empty document, a document whose item div has no
image, and one whose image has no `src`, each produce the matching
error. -/
theorem C5_notfound_errors_witness :
    get_first_item .nil URL = Except.error "No item div found on the page"
  ∧ get_first_item docNoImg URL = Except.error "No image tag found in the first item div"
  ∧ get_first_item docNoSrc URL = Except.error "No image tag found in the first item div" :=
  ⟨C5_notfound_errors.1 .nil URL (by intro n hn; cases hn),
   C5_notfound_errors.2.1 docNoImg URL _ rfl rfl,
   C5_notfound_errors.2.2 docNoSrc URL _ _ rfl rfl rfl⟩

/-! ### Claim C6 -/

/-- C6: counterexample.  In `docEmptySrc` the item div's image does carry
a `src` attribute (with value `""`) and the div has no `<dd>`, yet
extraction does not succeed with caption `""`: the falsiness test on the
attribute makes `get_first_item` raise the no-image error. -/
theorem C6_counterexample :
    getAttr (Node.elem "img" [("src", "")] .nil) "src" = some ""
  ∧ findTag (Node.elem "div" [("id", "item_3")] (NodeList.ofList [
      Node.elem "img" [("src", "")] .nil])) "dd" = none
  ∧ get_first_item docEmptySrc URL = Except.error "No image tag found in the first item div" :=
  ⟨rfl, rfl, rfl⟩

/-- C6 (amended): for every HTML input whose matched item container's
first `<img>` has a non-empty `src` attribute and which has no `<dd>`
descendant, extraction succeeds and returns the empty string as the
caption; the missing `<dd>` is never an error. -/
theorem C6_missing_dd (doc : NodeList) (url : String) (d img : Node) (s : String)
    (hd : findDiv doc = some d) (hi : findTag d "img" = some img)
    (hs : getAttr img "src" = some s) (hne : s ≠ "") (hdd : findTag d "dd" = none) :
    get_first_item doc url = Except.ok (normalizeSrc url (pyStrip s), "") := by
  rw [get_first_item_eq_ok hd hi hs hne, hdd]

/-- C6: witness instantiating `C6_missing_dd` at `docNoDd`. -/
theorem C6_missing_dd_witness :
    get_first_item docNoDd URL = Except.ok ("https://cdn.example.com/x.jpg", "") :=
  C6_missing_dd docNoDd URL _ _ "https://cdn.example.com/x.jpg" rfl rfl rfl
    (by decide) rfl

/-! ### Concrete oracles used by the entry-point witnesses -/

/-- A page fetch that fails (HTTP or transport error). -/
def failFetch : Except String NodeList := Except.error "boom"

/-- An image download that fails for every URL. -/
def failDownload : String → Except String (List Nat) := fun _ => Except.error "boom"

/-- A notify step that fails for every input. -/
def failNotify : String → String → List Nat → String → Except String TgResponse :=
  fun _ _ _ _ => Except.error "boom"

/-- A page fetch returning the parsed `docNoDd`. -/
def okFetch : Except String NodeList := Except.ok docNoDd

/-- An image download returning some bytes for every URL. -/
def okDownload : String → Except String (List Nat) := fun _ => Except.ok [137, 80]

/-- A notify step whose successful HTTP exchange carries `ok: false`. -/
def okNotifyFalse : String → String → List Nat → String → Except String TgResponse :=
  fun _ _ _ _ => Except.ok ⟨some false⟩

/-! ### Claim C7 -/

/-- C7: if either environment variable is absent or the empty string
(individually or both), the entry point prints the usage message and
terminates with exit code 2 without attempting any network call. -/
theorem C7_config_exit2 (token chat_id : Option String)
    (fetchResult : Except String NodeList)
    (download : String → Except String (List Nat))
    (notify : String → String → List Nat → String → Except String TgResponse)
    (h : token = none ∨ token = some "" ∨ chat_id = none ∨ chat_id = some "") :
    main token chat_id fetchResult download notify =
      { exitCode := 2, output := [usageMsg], calls := [] } := by
  rcases h with h | h | h | h <;> subst h <;> simp [main, isFalsy]

/-- C7: witness — a run with the token unset exits 2 with no network
stage entered. -/
theorem C7_config_exit2_witness :
    main none (some "123") failFetch failDownload failNotify =
      { exitCode := 2, output := [usageMsg], calls := [] } :=
  C7_config_exit2 none (some "123") failFetch failDownload failNotify (Or.inl rfl)

/-! ### Claim C8 -/

/-- C8: a failure of the page fetch, the image download, or the notify
step prints an error, terminates with exit code 1, and enters no later
stage of the pipeline. -/
theorem C8_stage_failures :
    (∀ (t c e : String) (download : String → Except String (List Nat))
        (notify : String → String → List Nat → String → Except String TgResponse),
        t ≠ "" → c ≠ "" →
        main (some t) (some c) (Except.error e) download notify =
          { exitCode := 1, output := ["Error fetching/parsing page: " ++ e],
            calls := [Step.fetchPage] })
  ∧ (∀ (t c : String) (fR : Except String NodeList)
        (download : String → Except String (List Nat))
        (notify : String → String → List Nat → String → Except String TgResponse)
        (u cap e : String),
        t ≠ "" → c ≠ "" →
        fR.bind (fun doc => get_first_item doc URL) = Except.ok (u, cap) →
        download u = Except.error e →
        main (some t) (some c) fR download notify =
          { exitCode := 1
            output := ["Found image: " ++ u, "Caption: " ++ cap,
              "Error downloading image: " ++ e]
            calls := [Step.fetchPage, Step.downloadImage] })
  ∧ (∀ (t c : String) (fR : Except String NodeList)
        (download : String → Except String (List Nat))
        (notify : String → String → List Nat → String → Except String TgResponse)
        (u cap e : String) (bytes : List Nat),
        t ≠ "" → c ≠ "" →
        fR.bind (fun doc => get_first_item doc URL) = Except.ok (u, cap) →
        download u = Except.ok bytes →
        notify t c bytes cap = Except.error e →
        main (some t) (some c) fR download notify =
          { exitCode := 1
            output := ["Found image: " ++ u, "Caption: " ++ cap,
              "Error sending to Telegram: " ++ e]
            calls := [Step.fetchPage, Step.downloadImage, Step.notify] }) := by
  refine ⟨?_, ?_, ?_⟩
  · intro t c e download notify ht hc
    simp [main, isFalsy, beq_iff_eq, ht, hc, Except.bind]
  · intro t c fR download notify u cap e ht hc hst hdl
    simp [main, isFalsy, beq_iff_eq, ht, hc, hst, hdl]
  · intro t c fR download notify u cap e bytes ht hc hst hdl hnf
    simp [main, isFalsy, beq_iff_eq, ht, hc, hst, hdl, hnf]

/-- C8: witness — each of the three stages failing on a concrete run
yields exit code 1 with the matching error line and no later stage. -/
theorem C8_stage_failures_witness :
    main (some "tok") (some "-100") failFetch okDownload okNotifyFalse =
      { exitCode := 1, output := ["Error fetching/parsing page: " ++ "boom"],
        calls := [Step.fetchPage] }
  ∧ main (some "tok") (some "-100") okFetch failDownload okNotifyFalse =
      { exitCode := 1
        output := ["Found image: " ++ "https://cdn.example.com/x.jpg", "Caption: " ++ "",
          "Error downloading image: " ++ "boom"]
        calls := [Step.fetchPage, Step.downloadImage] }
  ∧ main (some "tok") (some "-100") okFetch okDownload failNotify =
      { exitCode := 1
        output := ["Found image: " ++ "https://cdn.example.com/x.jpg", "Caption: " ++ "",
          "Error sending to Telegram: " ++ "boom"]
        calls := [Step.fetchPage, Step.downloadImage, Step.notify] } :=
  ⟨C8_stage_failures.1 "tok" "-100" "boom" okDownload okNotifyFalse
      (by decide) (by decide),
   C8_stage_failures.2.1 "tok" "-100" okFetch failDownload okNotifyFalse
      "https://cdn.example.com/x.jpg" "" "boom" (by decide) (by decide) rfl rfl,
   C8_stage_failures.2.2 "tok" "-100" okFetch okDownload failNotify
      "https://cdn.example.com/x.jpg" "" "boom" [137, 80] (by decide) (by decide)
      rfl rfl rfl⟩

/-! ### Claim C9 -/

/-- C9: when the notify POST itself succeeds with a parseable body, the
process prints the response's `ok` field and exits with code 0 regardless
of that field's value — an `ok: false` (or absent `ok`) payload is never
escalated to a nonzero exit. -/
theorem C9_lenient_ok (t c : String) (fR : Except String NodeList)
    (download : String → Except String (List Nat))
    (notify : String → String → List Nat → String → Except String TgResponse)
    (u cap : String) (bytes : List Nat) (r : TgResponse)
    (ht : t ≠ "") (hc : c ≠ "")
    (hst : fR.bind (fun doc => get_first_item doc URL) = Except.ok (u, cap))
    (hdl : download u = Except.ok bytes)
    (hnf : notify t c bytes cap = Except.ok r) :
    main (some t) (some c) fR download notify =
      { exitCode := 0
        output := ["Found image: " ++ u, "Caption: " ++ cap,
          "Telegram API returned ok= " ++ pyShow r.ok]
        calls := [Step.fetchPage, Step.downloadImage, Step.notify] } := by
  simp [main, isFalsy, beq_iff_eq, ht, hc, hst, hdl, hnf]

/-- C9: witness — a run whose messaging API reports `ok: false` still
exits 0 and prints `False`. -/
theorem C9_lenient_ok_witness :
    main (some "tok") (some "-100") okFetch okDownload okNotifyFalse =
      { exitCode := 0
        output := ["Found image: " ++ "https://cdn.example.com/x.jpg", "Caption: " ++ "",
          "Telegram API returned ok= " ++ pyShow (some false)]
        calls := [Step.fetchPage, Step.downloadImage, Step.notify] } :=
  C9_lenient_ok "tok" "-100" okFetch okDownload okNotifyFalse
    "https://cdn.example.com/x.jpg" "" [137, 80] ⟨some false⟩
    (by decide) (by decide) rfl rfl rfl

/-! ### Claim C10 -/

/-- C10: when the matched item container's first `<img>` has a `src`
attribute consisting only of whitespace, `get_first_item` does not raise:
the not-found test sees the untrimmed (truthy) attribute, stripping
yields `""`, neither normalization case applies, and the empty string is
returned as the image URL. -/
theorem C10_ws_src (doc : NodeList) (url : String) (d img : Node) (s : String)
    (hd : findDiv doc = some d) (hi : findTag d "img" = some img)
    (hs : getAttr img "src" = some s) (hne : s ≠ "")
    (hsp : ∀ c ∈ s.data, isPySpace c = true) :
    ∃ cap, get_first_item doc url = Except.ok ("", cap) := by
  rw [get_first_item_eq_ok hd hi hs hne, pyStrip_all_space hsp]
  exact ⟨_, rfl⟩

/-- C10: witness instantiating `C10_ws_src` at `docWsSrc`, whose image
has `src="   "`. -/
theorem C10_ws_src_witness :
    ∃ cap, get_first_item docWsSrc URL = Except.ok ("", cap) :=
  C10_ws_src docWsSrc URL _ _ "   " rfl rfl rfl (by decide) (by decide)

end SendFirstImg
